import Mathlib

/-!
Shallow embedding of the chart engine of `nodejitsu/registry-status-pagelet`.

The embedding follows the most feature-complete client variant
(`src/unnamed/part_000`); where a claim is about the earlier variant
(`src/client.js`) a separate definition prefixed `client` is given.
JavaScript numbers carried in samples are modelled as `ℚ`, timestamps in
milliseconds as `ℤ`, and `undefined` as `Option.none`.  DOM rendering and
d3 transitions are modelled by their end states; thrown `TypeError`s are
modelled with `Except.error`.
-/

namespace RegistryStatus

/-- One measurement: a timestamp `t` and a `values` object mapping metric
field names (e.g. `mean`, `n`, `lower`) to numbers. -/
structure Sample where
  t : ℤ
  values : List (String × ℚ)
deriving DecidableEq

instance : Inhabited Sample := ⟨⟨0, []⟩⟩

/-- JavaScript `v || d` for an optionally-present numeric option field:
`undefined` and `0` are falsy, any other number is truthy. -/
def jsOrNum (v : Option ℕ) (d : ℕ) : ℕ :=
  match v with
  | some x => if x = 0 then d else x
  | none => d

/-- JavaScript `v || d` for an optionally-present string option field:
`undefined` and the empty string are falsy. -/
def jsOrStr (v : Option String) (d : String) : String :=
  match v with
  | some s => if s = "" then d else s
  | none => d

/-- `d3.max(data, f)` where `f d = d.values[key]` (the chart's `max`
accessor): entries whose accessor is `undefined` are skipped and the
maximum of the remaining values is returned; on no defined value the
result is `undefined` (`none`). -/
def d3max (data : List Sample) (key : String) : Option ℚ :=
  data.foldl
    (fun acc s =>
      match s.values.lookup key, acc with
      | none, a => a
      | some b, none => some b
      | some b, some a => some (if b > a then b else a))
    none

/-- The backfill loop body of the `Chart` constructor:
`while (--i) { this.data.push(data[data.length - i]); }` entered with
counter value `i`.  Each iteration first decrements the counter and stops
when it reaches `0`; otherwise it pushes `data[data.length - i]` (with the
decremented `i`). -/
def backfillAux (data : List Sample) : ℕ → List Sample
  | 0 => []
  | i + 1 =>
    if i = 0 then []
    else data.getD (data.length - i) default :: backfillAux data i

/-- Backfill of the chart window at construction
(`src/unnamed/part_000` lines 363–366):
`i = this.n < data.length ? this.n : data.length + 1;` followed by the
push loop. -/
def backfill (n : ℕ) (data : List Sample) : List Sample :=
  backfillAux data (if n < data.length then n else data.length + 1)

/-- The backfill index initialisation of the earlier variant
(`src/client.js` line 321): `i = this.n < data.length ? this.n : data.length;`. -/
def clientBackfill (n : ℕ) (data : List Sample) : List Sample :=
  backfillAux data (if n < data.length then n else data.length)

/-- The kind of d3 scale produced by `Chart.prototype.scale`. -/
inductive ScaleKind where
  | ordinal
  | time
  | linear
deriving DecidableEq

/-- The `switch (type)` of `Chart.prototype.scale`
(`src/unnamed/part_000` lines 619–631): `ordinal` and `time` are matched
explicitly and every other type falls through to the `default:` branch,
which builds a linear scale. -/
def scaleConstruct (type : String) : ScaleKind :=
  if type = "ordinal" then ScaleKind.ordinal
  else if type = "time" then ScaleKind.time
  else ScaleKind.linear

/-- Property names present on a `Chart` instance at the moment
`Chart.prototype.visuals` evaluates `this.options.visual in this`: the
fields assigned by the constructor and by `statistics()`, the prototype
methods, and the `Object.prototype` members every object inherits. -/
def chartProps : List String :=
  ["container", "options", "latest", "data", "name", "step", "n", "key",
   "tip", "max", "stats", "last",
   "statistics", "visuals", "text", "current", "time", "grid", "units",
   "scale", "range", "line", "bar", "heatmap", "update", "animate",
   "tooltip",
   "constructor", "toString", "toLocaleString", "valueOf",
   "hasOwnProperty", "isPrototypeOf", "propertyIsEnumerable"]

/-- Renderer selection in `Chart.prototype.visuals`
(`src/unnamed/part_000` line 415):
`var visual = this.options.visual in this ? this.options.visual : 'line'`.
An `undefined` visual is stringified to `"undefined"`, which is not a
chart property, so it also falls back to `'line'`. -/
def visualSelect (visual : Option String) : String :=
  match visual with
  | some v => if v ∈ chartProps then v else "line"
  | none => "line"

/-- JavaScript `Math.round`: round half toward positive infinity. -/
def jsRound (q : ℚ) : ℤ := ⌊q + 1 / 2⌋

/-- Heatmap severity class computation (`src/unnamed/part_000`
lines 789–792): `var value = Math.round(d.values.n / 10);` and the class
index is `value < 10 ? value : 10`. -/
def heatmapLevel (nv : ℚ) : ℤ :=
  let value := jsRound (nv / 10)
  if value < 10 then value else 10

/-- `Chart.prototype.range` with `boundary = true`
(`src/unnamed/part_000` line 647): `[end - n * interval, end]`. -/
def chartRangeBoundary (endT : ℤ) (n stepMs : ℕ) : ℤ × ℤ :=
  (endT - (n : ℤ) * (stepMs : ℤ), endT)

/-- The option fields of a chart configuration that the embedded
operations consult; absent fields are `none` (`undefined`). -/
structure Options where
  step : Option ℕ
  n : Option ℕ
  key : Option String
  visual : Option String
  xDomain : Option (ℤ × ℤ)
  yDomain : Option (ℚ × ℚ)

/-- A chart configuration with every field omitted. -/
def optsNone : Options :=
  { step := none, n := none, key := none, visual := none,
    xDomain := none, yDomain := none }

/-- The state of one chart: its resolved configuration, rolling data
window, and the current scale domains (the y lower bound is always `0`;
`yHi` is the upper bound, `none` when it is `undefined`). -/
structure Chart where
  name : String
  step : ℕ
  n : ℕ
  key : String
  visual : String
  data : List Sample
  xDomain : ℤ × ℤ
  yHi : Option ℚ
deriving DecidableEq

/-- The chart's `max` accessor: `function max(d) { return d.values[chart.key]; }`. -/
def Chart.maxVal (c : Chart) (s : Sample) : Option ℚ :=
  s.values.lookup c.key

/-- End state of `Chart.prototype.animate`: only the `line` renderer's
serie object carries an `animate` member (`'animate' in this.serie`), so
only line charts rebind their domains.  The line animate closure
(`src/unnamed/part_000` lines 682–703) sets the x domain to
`range(Date.now(), n, step, true)` and the y domain to
`[0, d3.max(chart.data, chart.max)]`. -/
def Chart.animate (now : ℤ) (c : Chart) : Chart :=
  if c.visual = "line" then
    { c with
      xDomain := chartRangeBoundary now c.n c.step,
      yHi := d3max c.data c.key }
  else c

/-- The `Chart` constructor (`src/unnamed/part_000` lines 338–378):
resolve `step`/`n`/`key` defaults, backfill the window from the history,
pick the renderer, build the x and y scales (`Chart.prototype.scale`
computes the domains when the axis options carry none), then run the
initial `animate`. -/
def mkChart (name : String) (data : List Sample) (options : Options)
    (now : ℤ) : Chart :=
  let step := jsOrNum options.step 60000
  let n := jsOrNum options.n 120
  let key := jsOrStr options.key "mean"
  let window := backfill n data
  let xDomain :=
    match options.xDomain with
    | some d => d
    | none => chartRangeBoundary now n step
  let yHi :=
    match options.yDomain with
    | some d => some d.2
    | none => d3max window key
  Chart.animate now
    { name := name, step := step, n := n, key := key,
      visual := visualSelect options.visual, data := window,
      xDomain := xDomain, yHi := yHi }

/-- The payload a probe carries (`probe.data`). -/
structure ProbeData where
  name : String
  registry : String
  results : Sample
deriving DecidableEq

/-- An incoming feed probe: `{ data: { name, registry, results }, latest }`. -/
structure Probe where
  data : ProbeData
  latest : Option ℚ
deriving DecidableEq

/-- `Chart.prototype.update` (`src/unnamed/part_000` lines 822–835):
push the new sample, update the readout (`current`, presentational),
run `animate` — note this happens while the window still contains the
sample about to be evicted — and finally `shift` the oldest sample off
the front. -/
def Chart.update (now : ℤ) (probe : Probe) (c : Chart) : Chart :=
  let c1 := { c with data := c.data ++ [probe.data.results] }
  let c2 := Chart.animate now c1
  { c2 with data := c2.data.drop 1 }

/-- The latest-value access of the earlier variant's `statistics`
(`src/client.js` lines 357–362):
`this.data[this.data.length - 1].values[this.key]`.  On an empty window
`this.data[-1]` is `undefined` and the `.values` dereference throws;
otherwise the (possibly `undefined`) field value is produced. -/
def clientStatisticsValue (data : List Sample) (key : String) :
    Except String (Option ℚ) :=
  match data.getLast? with
  | none => Except.error "TypeError: cannot read values of undefined"
  | some s => Except.ok (s.values.lookup key)

/-- One registry chart group in the charts SVG container: its registry
class name, whether it carries the `show` class, and its current
translate transform. -/
structure Group where
  id : String
  shown : Bool
  transform : ℤ × ℤ
deriving DecidableEq

/-- End state of hiding the currently shown groups
(`this.container.selectAll('.registry.show')` transitioned to
`translate(width, margin.top)` and the `show` class removed at the end). -/
def hideShown (width marginTop : ℤ) (groups : List Group) : List Group :=
  groups.map fun g =>
    if g.shown then { g with shown := false, transform := (width, marginTop) }
    else g

/-- End state of showing the newly selected group:
`container.select('.' + id)` matches the first group with the class,
which gains the `show` class and transitions to `translate(0, margin.top)`. -/
def setShowFirst (marginTop : ℤ) : List Group → String → List Group
  | [], _ => []
  | g :: gs, id =>
    if g.id = id then { g with shown := true, transform := (0, marginTop) } :: gs
    else g :: setShowFirst marginTop gs id

/-- `Charts.prototype.select` (`src/unnamed/part_000` lines 233–261):
when the container already holds an element matching `.show.<id>` the
call returns immediately; otherwise the shown groups are hidden and the
first group with class `<id>` is shown. -/
def Charts.select (width marginTop : ℤ) (groups : List Group)
    (id : String) : List Group :=
  if groups.any (fun g => g.shown && g.id == id) then groups
  else setShowFirst marginTop (hideShown width marginTop groups) id

/-- `Charts.prototype.name`: `type + ':' + registry`. -/
def chartsName (type registry : String) : String :=
  type ++ ":" ++ registry

/-- Replace the chart stored under `nm` in the stack (in-place mutation
of `this.stack[name]` in the JavaScript object). -/
def updateStack (stack : List (String × Chart)) (nm : String)
    (f : Chart → Chart) : List (String × Chart) :=
  stack.map fun p => if p.1 = nm then (p.1, f p.2) else p

/-- `Charts.prototype.append` (`src/unnamed/part_000` lines 322–325):
`this.stack[this.name(probe.data.name, probe.data.registry)].update(probe)`.
When no chart is stored under the computed key the member lookup yields
`undefined` and calling `.update` on it throws a `TypeError`. -/
def Charts.append (now : ℤ) (stack : List (String × Chart))
    (probe : Probe) : Except String (List (String × Chart)) :=
  let nm := chartsName probe.data.name probe.data.registry
  match stack.lookup nm with
  | none => Except.error "TypeError: cannot call update of undefined"
  | some _ => Except.ok (updateStack stack nm (Chart.update now probe))

end RegistryStatus

namespace RegistryStatus

/-! ### Concrete inputs used by counterexamples and witnesses -/

/-- A sample carrying `values.mean = 10`. -/
def sampleA : Sample := ⟨1, [("mean", 10)]⟩

/-- A sample carrying `values.mean = 2`. -/
def sampleB : Sample := ⟨2, [("mean", 2)]⟩

/-- A sample carrying `values.mean = 3`. -/
def sampleC : Sample := ⟨3, [("mean", 3)]⟩

/-- A sample carrying `values.mean = 40`. -/
def sampleD : Sample := ⟨4, [("mean", 40)]⟩

/-- A feed probe for the `ping:npmjs` chart delivering `sampleB`. -/
def probeB : Probe := ⟨⟨"ping", "npmjs", sampleB⟩, some 2⟩

/-- A feed probe for the `ping:npmjs` chart delivering `sampleC`. -/
def probeC : Probe := ⟨⟨"ping", "npmjs", sampleC⟩, some 3⟩

/-- A line chart whose window holds a single sample, far below its
capacity of 120. -/
def chartShort : Chart :=
  { name := "ping:npmjs", step := 60000, n := 120, key := "mean",
    visual := "line", data := [sampleA], xDomain := (0, 0), yHi := some 10 }

/-- A line chart whose window is exactly at its capacity of 2. -/
def chartFull : Chart :=
  { name := "ping:npmjs", step := 60000, n := 2, key := "mean",
    visual := "line", data := [sampleA, sampleB], xDomain := (0, 0),
    yHi := some 10 }

/-- A line chart holding two samples whose window maximum (10) sits at
the front, about to be evicted. -/
def chartPair : Chart :=
  { name := "ping:npmjs", step := 60000, n := 120, key := "mean",
    visual := "line", data := [sampleA, sampleB], xDomain := (0, 0),
    yHi := some 10 }

/-- Two registry chart groups, `npmjs` currently shown. -/
def demoGroups : List Group :=
  [⟨"npmjs", true, (0, 10)⟩, ⟨"nodejitsu", false, (100, 10)⟩]

/-! ### Helper lemmas -/

/-- The backfill loop entered with counter `i` (for `1 ≤ i ≤ |data| + 1`)
pushes exactly the last `i - 1` elements of `data`, in order. -/
lemma backfillAux_eq_drop (data : List Sample) :
    ∀ i : ℕ, 1 ≤ i → i ≤ data.length + 1 →
      backfillAux data i = data.drop (data.length + 1 - i) := by
  intro i
  induction i with
  | zero => omega
  | succ i ih =>
    intro _ hle
    by_cases h0 : i = 0
    · subst h0
      simp [backfillAux, List.drop_length]
    · have h1 : 1 ≤ i := Nat.one_le_iff_ne_zero.mpr h0
      have h2 : i ≤ data.length := by omega
      have hlt : data.length - i < data.length := by omega
      rw [backfillAux, if_neg h0, ih h1 (by omega),
        List.getD_eq_getElem data default hlt,
        show data.length + 1 - i = data.length - i + 1 by omega,
        ← List.drop_eq_getElem_cons hlt,
        show data.length + 1 - (i + 1) = data.length - i by omega]

/-- Backfill keeps the whole history when it is no longer than `n`. -/
lemma backfill_of_le (n : ℕ) (data : List Sample) (h : data.length ≤ n) :
    backfill n data = data := by
  rw [backfill, if_neg (by omega),
    backfillAux_eq_drop data (data.length + 1) (by omega) (by omega)]
  simp

/-- Backfill of a history strictly longer than `n` keeps only the
trailing `n - 1` entries. -/
lemma backfill_of_lt (n : ℕ) (data : List Sample) (h1 : 1 ≤ n)
    (h : n < data.length) :
    backfill n data = data.drop (data.length + 1 - n) := by
  rw [backfill, if_pos h, backfillAux_eq_drop data n h1 (by omega)]

/-- `update` appends the probe's sample and then drops the front element,
regardless of the renderer. -/
lemma update_data_eq (now : ℤ) (probe : Probe) (c : Chart) :
    (Chart.update now probe c).data = (c.data ++ [probe.data.results]).drop 1 := by
  rw [Chart.update, Chart.animate]
  split <;> rfl

/-- `update` never changes the length of the data window. -/
lemma update_data_length (now : ℤ) (probe : Probe) (c : Chart) :
    (Chart.update now probe c).data.length = c.data.length := by
  rw [update_data_eq]
  simp

/-- Every group coming out of `hideShown` has lost the `show` class. -/
lemma hideShown_not_shown (width marginTop : ℤ) (l : List Group) :
    ∀ g ∈ hideShown width marginTop l, g.shown = false := by
  intro g hg
  rw [hideShown, List.mem_map] at hg
  obtain ⟨g0, _, rfl⟩ := hg
  by_cases h : g0.shown <;> simp [h]

/-- `hideShown` leaves the class names of the groups untouched. -/
lemma hideShown_id_eq (width marginTop : ℤ) (l : List Group) :
    (hideShown width marginTop l).map Group.id = l.map Group.id := by
  rw [hideShown, List.map_map]
  apply List.map_congr_left
  intro g _
  by_cases h : g.shown <;> simp [h]

/-- `hideShown` fixes a list in which no group is shown. -/
lemma hideShown_of_not_shown (width marginTop : ℤ) (l : List Group)
    (h : ∀ g ∈ l, g.shown = false) : hideShown width marginTop l = l := by
  rw [hideShown]
  conv_rhs => rw [← List.map_id l]
  apply List.map_congr_left
  intro g hg
  simp [h g hg]

/-- `setShowFirst` fixes a list containing no group with the class. -/
lemma setShowFirst_of_not_mem (marginTop : ℤ) (l : List Group) (id : String)
    (h : ∀ g ∈ l, g.id ≠ id) : setShowFirst marginTop l id = l := by
  induction l with
  | nil => rfl
  | cons g gs ih =>
    rw [setShowFirst, if_neg (h g (List.mem_cons_self g gs))]
    rw [ih fun g hg => h g (List.mem_cons_of_mem _ hg)]

/-- After `setShowFirst` on a list containing the class, some group with
that class carries the `show` class. -/
lemma setShowFirst_mem_shown (marginTop : ℤ) (l : List Group) (id : String)
    (h : ∃ g ∈ l, g.id = id) :
    ∃ g ∈ setShowFirst marginTop l id, g.shown = true ∧ g.id = id := by
  induction l with
  | nil => simp at h
  | cons g gs ih =>
    by_cases hg : g.id = id
    · refine ⟨{ g with shown := true, transform := (0, marginTop) }, ?_, rfl, hg⟩
      rw [setShowFirst, if_pos hg]
      exact List.mem_cons_self _ _
    · obtain ⟨g1, hg1, hid1⟩ := h
      rcases List.mem_cons.mp hg1 with rfl | hmem
      · exact absurd hid1 hg
      · obtain ⟨g2, hg2, h2⟩ := ih ⟨g1, hmem, hid1⟩
        refine ⟨g2, ?_, h2⟩
        rw [setShowFirst, if_neg hg]
        exact List.mem_cons_of_mem _ hg2

/-- The early-return guard of `Charts.select` fires exactly when some
group carries both the `show` class and the selected class. -/
lemma select_guard_iff (groups : List Group) (id : String) :
    (groups.any fun g => g.shown && g.id == id) = true
      ↔ ∃ g ∈ groups, g.shown = true ∧ g.id = id := by
  rw [List.any_eq_true]
  constructor
  · rintro ⟨g, hg, hp⟩
    rw [Bool.and_eq_true, beq_iff_eq] at hp
    exact ⟨g, hg, hp⟩
  · rintro ⟨g, hg, h1, h2⟩
    exact ⟨g, hg, by rw [Bool.and_eq_true, beq_iff_eq]; exact ⟨h1, h2⟩⟩

/-- A class name occurring among the mapped ids comes from some group. -/
lemma mem_id_of_map {l : List Group} {id : String}
    (h : id ∈ l.map Group.id) : ∃ g ∈ l, g.id = id := by
  rw [List.mem_map] at h
  obtain ⟨g, hg, hid⟩ := h
  exact ⟨g, hg, hid⟩

end RegistryStatus

namespace RegistryStatus

/-! ### Claim theorems -/

/-- C1 counterexample: the claim says `update` evicts only when the
window length after the append exceeds the capacity `n`.  On a window of
length 1 with capacity 120 the append yields length 2, which does not
exceed 120, yet the code still evicts the front sample and the window
length stays 1 instead of becoming 2. -/
theorem update_evicts_below_capacity_cex :
    chartShort.data.length = 1 ∧ 1 + 1 < chartShort.n
    ∧ (Chart.update 0 probeB chartShort).data ≠ chartShort.data ++ [probeB.data.results]
    ∧ (Chart.update 0 probeB chartShort).data.length = 1 := by
  refine ⟨rfl, by decide, ?_, ?_⟩ <;> decide

/-- C1 amended: `Chart.update` appends the sample to the end of the
window and then always evicts exactly one element from the front,
regardless of the capacity `n`, so the window length is unchanged by
every update; in particular a window already holding exactly `n` samples
still holds exactly `n` afterwards. -/
theorem update_push_always_evicts (now : ℤ) (probe : Probe) (c : Chart) :
    (Chart.update now probe c).data = (c.data ++ [probe.data.results]).drop 1
    ∧ (Chart.update now probe c).data.length = c.data.length
    ∧ (c.data.length = c.n → (Chart.update now probe c).data.length = c.n) := by
  refine ⟨update_data_eq now probe c, update_data_length now probe c, ?_⟩
  intro h
  rw [update_data_length, h]

/-- Witness for C1 amended: a chart at capacity 2 stays at length 2
through an update. -/
theorem update_push_always_evicts_witness :
    chartFull.data.length = chartFull.n
    ∧ (Chart.update 0 probeC chartFull).data.length = chartFull.n :=
  ⟨by decide, (update_push_always_evicts 0 probeC chartFull).2.2 (by decide)⟩

/-- C9 confirmed: `Chart.update` leaves the window length unchanged — it
always appends exactly one sample and always drops exactly one element
off the front, even when the window holds fewer than `n` samples — and
consequently no sequence of live updates ever changes the window length,
so a short backfilled window never grows toward capacity. -/
theorem update_length_invariant (now : ℤ) (probe : Probe) (c : Chart) :
    (Chart.update now probe c).data.length = c.data.length
    ∧ (Chart.update now probe c).data = (c.data ++ [probe.data.results]).drop 1
    ∧ ∀ probes : List Probe,
        ((probes.foldl (fun ch p => Chart.update now p ch) c).data.length
          = c.data.length) := by
  refine ⟨update_data_length now probe c, update_data_eq now probe c, ?_⟩
  intro probes
  induction probes generalizing c with
  | nil => rfl
  | cons p ps ih => rw [List.foldl_cons, ih, update_data_length]

/-- C2 counterexample: the claim says construction with a history of at
least `n` entries backfills exactly the trailing `n` entries.  With
`n = 3` and a four-sample history the window receives only the trailing
2 entries, not the trailing 3. -/
theorem backfill_trailing_cex :
    backfill 3 [sampleA, sampleB, sampleC, sampleD] = [sampleC, sampleD]
    ∧ backfill 3 [sampleA, sampleB, sampleC, sampleD]
        ≠ [sampleB, sampleC, sampleD] := by
  constructor <;> decide

/-- C2 amended: for capacity `n ≥ 1`, backfill keeps the whole history
(no padding, no failure) when the history has at most `n` entries —
including exactly `n` — and keeps exactly the trailing `n - 1` entries
when the history is strictly longer than `n`; construction is total, so
it never throws on short histories. -/
theorem backfill_characterisation (n : ℕ) (data : List Sample) (h1 : 1 ≤ n) :
    (data.length ≤ n → backfill n data = data)
    ∧ (n < data.length → backfill n data = data.drop (data.length + 1 - n))
    ∧ (n < data.length → (backfill n data).length = n - 1) := by
  refine ⟨fun h => backfill_of_le n data h,
    fun h => backfill_of_lt n data h1 h, fun h => ?_⟩
  rw [backfill_of_lt n data h1 h, List.length_drop]
  omega

/-- Witness for C2 amended: capacity 3 against a four-entry history
keeps the trailing two entries. -/
theorem backfill_characterisation_witness :
    1 ≤ 3 ∧ 3 < ([sampleA, sampleB, sampleC, sampleD] : List Sample).length
    ∧ backfill 3 [sampleA, sampleB, sampleC, sampleD]
        = ([sampleA, sampleB, sampleC, sampleD] : List Sample).drop 2 :=
  ⟨by decide, by decide,
    (backfill_characterisation 3 [sampleA, sampleB, sampleC, sampleD]
      (by decide)).2.1 (by decide)⟩

/-- C3 counterexample: the claim says an unknown scale type or an
unsupported visual kind is a fatal configuration error with no silent
default.  The code instead silently builds a linear scale for the
unknown type `bogus` and silently picks the `line` renderer for the
unsupported visual `sparkline`. -/
theorem silent_default_cex :
    scaleConstruct "bogus" = ScaleKind.linear
    ∧ visualSelect (some "sparkline") = "line" := by
  constructor <;> rfl

/-- C3 amended: chart construction never fails on bad configuration:
every scale type other than `ordinal` and `time` silently falls through
to a linear scale, and every visual kind that is not a property of the
chart instance (as well as an omitted visual) silently falls back to the
`line` renderer. -/
theorem silent_default_fallbacks :
    (∀ t : String, t ≠ "ordinal" → t ≠ "time" →
      scaleConstruct t = ScaleKind.linear)
    ∧ (∀ v : String, v ∉ chartProps → visualSelect (some v) = "line")
    ∧ visualSelect none = "line" := by
  refine ⟨fun t h1 h2 => ?_, fun v hv => ?_, rfl⟩
  · rw [scaleConstruct, if_neg h1, if_neg h2]
  · rw [visualSelect, if_neg hv]

/-- Witness for C3 amended: the unknown scale type `percentage` and the
unsupported visual `donut` both fall back silently. -/
theorem silent_default_fallbacks_witness :
    scaleConstruct "percentage" = ScaleKind.linear
    ∧ visualSelect (some "donut") = "line" :=
  ⟨silent_default_fallbacks.1 "percentage" (by decide) (by decide),
    silent_default_fallbacks.2.1 "donut" (by decide)⟩

/-- C4 counterexample: the claim says a count of 55 maps to intensity
level 5.  `Math.round(55 / 10) = Math.round(5.5) = 6` (JavaScript rounds
half up), so the cell gets level 6, not 5. -/
theorem heatmap_level_55_cex :
    heatmapLevel 55 = 6 ∧ heatmapLevel 55 ≠ 5 := by
  constructor <;> norm_num [heatmapLevel, jsRound]

/-- C4 amended: for every count `n`, the heatmap intensity level equals
`round(n / 10)` with round-half-up, clamped above at 10 (the lower clamp
at 0 is automatic for counts), i.e. `min ((n + 5) / 10) 10` in integer
arithmetic; the level always lies in `[0, 10]`, with `n = 0 ↦ 0`,
`n = 100 ↦ 10` and `n = 55 ↦ 6`. -/
theorem heatmap_level_formula :
    (∀ n : ℕ, heatmapLevel n = min (((n + 5) / 10 : ℕ) : ℤ) 10)
    ∧ (∀ n : ℕ, 0 ≤ heatmapLevel n ∧ heatmapLevel n ≤ 10)
    ∧ heatmapLevel 0 = 0 ∧ heatmapLevel 100 = 10 ∧ heatmapLevel 55 = 6 := by
  have key : ∀ n : ℕ, heatmapLevel n = min (((n + 5) / 10 : ℕ) : ℤ) 10 := by
    intro n
    have h1 : ((n : ℚ)) / 10 + 1 / 2 = (((n + 5 : ℕ) : ℚ)) / ((10 : ℕ) : ℚ) := by
      push_cast
      ring
    have h2 : jsRound ((n : ℚ) / 10) = (((n + 5) / 10 : ℕ) : ℤ) := by
      rw [jsRound, h1, Rat.floor_natCast_div_natCast]
      omega
    rw [heatmapLevel, h2]
    rcases lt_or_le (((n + 5) / 10 : ℕ) : ℤ) 10 with h | h
    · rw [if_pos h, min_eq_left (le_of_lt h)]
    · rw [if_neg (not_lt.mpr h), min_eq_right h]
  refine ⟨key, fun n => ?_, ?_, ?_, ?_⟩
  · rw [key n]
    constructor
    · exact le_min (Int.natCast_nonneg _) (by norm_num)
    · exact min_le_right _ _
  all_goals norm_num [heatmapLevel, jsRound]

/-- C5 counterexample: the claim says that after `update` the y-domain
upper bound equals the window maximum over exactly the samples currently
in the window.  Updating a window `[mean 10, mean 2]` with `mean 3`
recomputes the maximum before the front sample is evicted, leaving the
upper bound at 10 while the maximum over the resulting window
`[mean 2, mean 3]` is 3. -/
theorem update_ydomain_stale_cex :
    (Chart.update 0 probeC chartPair).yHi = some 10
    ∧ d3max (Chart.update 0 probeC chartPair).data
        (Chart.update 0 probeC chartPair).key = some 3
    ∧ (Chart.update 0 probeC chartPair).yHi
        ≠ d3max (Chart.update 0 probeC chartPair).data
            (Chart.update 0 probeC chartPair).key := by
  refine ⟨?_, ?_, ?_⟩ <;> decide

/-- C5 amended: for a line chart, `update` recomputes the y-domain upper
bound fresh on every call (never a cumulative historical maximum), but
over the pre-eviction window — the previous window plus the appended
sample — because `animate` runs before the front sample is shifted off. -/
theorem update_ydomain_pre_eviction (now : ℤ) (probe : Probe) (c : Chart)
    (h : c.visual = "line") :
    (Chart.update now probe c).yHi
      = d3max (c.data ++ [probe.data.results]) c.key := by
  rw [Chart.update, Chart.animate]
  simp only [h]
  rfl

/-- Witness for C5 amended: the concrete line chart's upper bound after
an update is the maximum over its previous window plus the new sample. -/
theorem update_ydomain_pre_eviction_witness :
    chartPair.visual = "line"
    ∧ (Chart.update 0 probeC chartPair).yHi
        = d3max (chartPair.data ++ [probeC.data.results]) chartPair.key :=
  ⟨rfl, update_ydomain_pre_eviction 0 probeC chartPair rfl⟩

/-- C6 counterexample: the claim says a sample whose `type:registry` key
matches no configured chart is dropped with a diagnostic and does not
throw.  Dispatching a `pong:mirror` probe against a stack holding only
`ping:npmjs` dereferences the missing chart and throws a `TypeError`. -/
theorem append_unknown_throws_cex :
    Charts.append 0 [("ping:npmjs", chartPair)]
        ⟨⟨"pong", "mirror", sampleC⟩, some 3⟩
      = Except.error "TypeError: cannot call update of undefined" := by
  rfl

/-- C6 amended: a sample whose `type:registry` key matches no configured
chart makes `Charts.append` throw a `TypeError` (calling `update` on the
`undefined` stack lookup) rather than dropping the sample with a
diagnostic; no chart's window is modified in that case. -/
theorem append_unknown_error (now : ℤ) (stack : List (String × Chart))
    (probe : Probe)
    (h : stack.lookup (chartsName probe.data.name probe.data.registry) = none) :
    Charts.append now stack probe
      = Except.error "TypeError: cannot call update of undefined" := by
  rw [Charts.append]
  simp only [h]

/-- Witness for C6 amended: the `pong:mirror` probe is absent from the
concrete stack and its dispatch throws. -/
theorem append_unknown_error_witness :
    ([("ping:npmjs", chartPair)] : List (String × Chart)).lookup
        (chartsName "pong" "mirror") = none
    ∧ Charts.append 7 [("ping:npmjs", chartPair)]
        ⟨⟨"pong", "mirror", sampleD⟩, none⟩
      = Except.error "TypeError: cannot call update of undefined" :=
  ⟨rfl, append_unknown_error 7 [("ping:npmjs", chartPair)]
    ⟨⟨"pong", "mirror", sampleD⟩, none⟩ rfl⟩

/-- C7 confirmed: `Charts.select` is idempotent — selecting the group
that is already visible returns immediately, changing no group's `show`
state or transform and restarting no transition, and selecting the same
id twice produces exactly the state of a single selection (also when the
id matches no group). -/
theorem select_idempotent (width marginTop : ℤ) (groups : List Group)
    (id : String) :
    ((∃ g ∈ groups, g.shown = true ∧ g.id = id) →
      Charts.select width marginTop groups id = groups)
    ∧ Charts.select width marginTop
        (Charts.select width marginTop groups id) id
      = Charts.select width marginTop groups id := by
  constructor
  · intro h
    rw [Charts.select, if_pos ((select_guard_iff groups id).mpr h)]
  · by_cases h0 : (groups.any fun g => g.shown && g.id == id) = true
    · have hsel : Charts.select width marginTop groups id = groups := by
        rw [Charts.select, if_pos h0]
      rw [hsel]
      exact hsel
    · have hsel : Charts.select width marginTop groups id
          = setShowFirst marginTop (hideShown width marginTop groups) id := by
        rw [Charts.select, if_neg h0]
      rw [hsel]
      set hidden := hideShown width marginTop groups with hhid
      by_cases hex : ∃ g ∈ groups, g.id = id
      · have hex1 : ∃ g ∈ hidden, g.id = id := by
          apply mem_id_of_map
          rw [hhid, hideShown_id_eq]
          obtain ⟨g, hg, hid⟩ := hex
          rw [List.mem_map]
          exact ⟨g, hg, hid⟩
        have h1 := setShowFirst_mem_shown marginTop hidden id hex1
        rw [Charts.select, if_pos ((select_guard_iff _ id).mpr h1)]
      · have hnot : ∀ g ∈ hidden, g.id ≠ id := by
          intro g hg hid
          apply hex
          have : g.id ∈ hidden.map Group.id := List.mem_map_of_mem Group.id hg
          rw [hhid, hideShown_id_eq, hid] at this
          exact mem_id_of_map this
        rw [setShowFirst_of_not_mem marginTop hidden id hnot]
        have hunshown : ∀ g ∈ hidden, g.shown = false :=
          hideShown_not_shown width marginTop groups
        have hguard : ¬ (hidden.any fun g => g.shown && g.id == id) = true := by
          rw [select_guard_iff]
          rintro ⟨g, hg, h1, _⟩
          rw [hunshown g hg] at h1
          exact Bool.false_ne_true h1
        rw [Charts.select, if_neg hguard,
          hideShown_of_not_shown width marginTop hidden hunshown,
          setShowFirst_of_not_mem marginTop hidden id hnot]

/-- Witness for C7: selecting the already-shown `npmjs` group leaves the
two concrete groups untouched. -/
theorem select_idempotent_witness :
    (∃ g ∈ demoGroups, g.shown = true ∧ g.id = "npmjs")
    ∧ Charts.select 100 10 demoGroups "npmjs" = demoGroups :=
  ⟨⟨⟨"npmjs", true, (0, 10)⟩, by decide, rfl, rfl⟩,
    (select_idempotent 100 10 demoGroups "npmjs").1
      ⟨⟨"npmjs", true, (0, 10)⟩, by decide, rfl, rfl⟩⟩

/-- C8 counterexample: the claim says rendering an empty window never
throws and treats the window maximum as zero.  The earlier client
variant's `statistics` dereferences the last sample of an empty window
and throws, and the window maximum of an empty window is `undefined`
(`none`), not zero. -/
theorem empty_window_cex :
    clientStatisticsValue [] "mean"
      = Except.error "TypeError: cannot read values of undefined"
    ∧ d3max [] "mean" ≠ some 0 := by
  constructor
  · rfl
  · decide

/-- C8 amended: the maximum over an empty window is `undefined` (`none`),
not zero or a configured floor; the earlier client variant's
`statistics` throws a `TypeError` on an empty window because its access
to the latest sample is unguarded; the feature-complete variant's
construction on an empty backfill completes with an `undefined` y-domain
upper bound rather than throwing. -/
theorem empty_window_behaviour :
    (∀ key : String, d3max [] key = none)
    ∧ (∀ key : String, clientStatisticsValue [] key
        = Except.error "TypeError: cannot read values of undefined")
    ∧ (∀ (nm : String) (now : ℤ), (mkChart nm [] optsNone now).yHi = none) := by
  refine ⟨fun key => rfl, fun key => rfl, fun nm now => rfl⟩

/-- C10 confirmed: in the feature-complete client variant, a chart built
from an options object omitting `step`, `n` and `key` defaults them to
`step = 60000` ms, `n = 120` steps and `key = "mean"`; the defaults give
the initial x-domain `[now - n * step, now]` of width `n * step =
7 200 000` ms, and the window-maximum accessor reads the `mean` field. -/
theorem chart_defaults (nm : String) (data : List Sample) (now : ℤ) :
    (mkChart nm data optsNone now).step = 60000
    ∧ (mkChart nm data optsNone now).n = 120
    ∧ (mkChart nm data optsNone now).key = "mean"
    ∧ (mkChart nm data optsNone now).visual = "line"
    ∧ (mkChart nm data optsNone now).xDomain = (now - 120 * 60000, now)
    ∧ (mkChart nm data optsNone now).xDomain.2
        - (mkChart nm data optsNone now).xDomain.1 = 120 * 60000
    ∧ ∀ s : Sample,
        (mkChart nm data optsNone now).maxVal s = s.values.lookup "mean" := by
  have h : (mkChart nm data optsNone now).xDomain
      = chartRangeBoundary now 120 60000 := rfl
  refine ⟨rfl, rfl, rfl, rfl, ?_, ?_, fun s => rfl⟩
  · rw [h, chartRangeBoundary]
    norm_num
  · rw [h, chartRangeBoundary]
    push_cast
    ring

end RegistryStatus
